import Mathlib

/-!
Shallow embedding of the Crab Pong game core (src/src/App.tsx).

The per-frame simulation uses real-number arithmetic in the source
(JavaScript floats); we model it over `ℚ`.  `Math.random()` is modelled
as an explicit parameter `r` with `0 ≤ r < 1`.  The rendering pieces
(meshes, lights, bubbles, HUD) are cosmetic and not modelled.
-/

namespace CrabPong

/-- Game constants, App.tsx lines 8-13. -/
def ARENA_WIDTH : ℚ := 12

def ARENA_HEIGHT : ℚ := 8

def PADDLE_WIDTH : ℚ := 5/2

def BALL_SPEED : ℚ := 8

def PADDLE_SPEED : ℚ := 10

def WINNING_SCORE : ℕ := 5

/-- THREE.MathUtils.lerp(x, y, t) = x + (y - x) * t.  The factor t is
NOT clamped to [0,1] by THREE. -/
def lerp (x y t : ℚ) : ℚ := x + (y - x) * t

/-- THREE.MathUtils.clamp(v, lo, hi) = max(lo, min(hi, v)). -/
def clamp (v lo hi : ℚ) : ℚ := max lo (min hi v)

/-- The two sides: `player` is the human (score1, left paddle at x = -5),
`ai` is the computer (score2, right paddle at x = +5).  `onScore 1` in the
source is `Side.player`, `onScore 2` is `Side.ai`. -/
inductive Side where
  | player
  | ai
deriving DecidableEq, Repr

def Side.other : Side → Side
  | .player => .ai
  | .ai => .player

/-- gameState: 'menu' | 'playing' | 'gameover', App.tsx line 436. -/
inductive GamePhase where
  | menu
  | playing
  | gameover
deriving DecidableEq, Repr

/-- Match-level React state of `App` (lines 434-437). -/
structure MatchState where
  score1 : ℕ
  score2 : ℕ
  gameState : GamePhase
  winner : Option Side
deriving DecidableEq, Repr

def scoreOf : Side → MatchState → ℕ
  | .player, m => m.score1
  | .ai, m => m.score2

/-- handleScore (App.tsx lines 439-459): increment the scorer's counter;
if the new value reaches WINNING_SCORE, set gameState to gameover and
record the winner. -/
def handleScore (side : Side) (m : MatchState) : MatchState :=
  match side with
  | .player =>
    let newScore := m.score1 + 1
    if WINNING_SCORE ≤ newScore then
      { m with score1 := newScore, gameState := .gameover, winner := some .player }
    else
      { m with score1 := newScore }
  | .ai =>
    let newScore := m.score2 + 1
    if WINNING_SCORE ≤ newScore then
      { m with score2 := newScore, gameState := .gameover, winner := some .ai }
    else
      { m with score2 := newScore }

/-- startGame (App.tsx lines 461-466): reset both scores, clear the
winner, set the phase to playing.  It touches nothing else. -/
def startGame (_m : MatchState) : MatchState :=
  { score1 := 0, score2 := 0, gameState := .playing, winner := none }

/-- Ball state: mesh position (px, py, pz) and the velocity ref
(vx, vy, vz).  Only px/pz are integrated; vy is never applied. -/
structure BallState where
  px : ℚ
  py : ℚ
  pz : ℚ
  vx : ℚ
  vy : ℚ
  vz : ℚ
deriving DecidableEq, Repr

/-- Initial ball: mesh position [0, 0.5, 0] (line 219), velocity
(BALL_SPEED, 0, BALL_SPEED * 0.5) (line 158). -/
def ballInit : BallState :=
  { px := 0, py := 1/2, pz := 0, vx := BALL_SPEED, vy := 0, vz := BALL_SPEED * (1/2) }

/-- Position integration (lines 167-168): only x and z advance. -/
def ballIntegrate (delta : ℚ) (b : BallState) : BallState :=
  { b with px := b.px + b.vx * delta, pz := b.pz + b.vz * delta }

/-- Top/bottom wall collision (lines 174-177): if z leaves the band,
invert vz and clamp z back. -/
def ballWalls (b : BallState) : BallState :=
  if b.pz > ARENA_HEIGHT / 2 - 3/10 ∨ b.pz < -(ARENA_HEIGHT / 2) + 3/10 then
    { b with vz := b.vz * (-1),
             pz := clamp b.pz (-(ARENA_HEIGHT / 2) + 3/10) (ARENA_HEIGHT / 2 - 3/10) }
  else b

/-- Left (player) paddle collision (lines 180-186).  `p1z` is
paddle1Ref.current.z. -/
def ballPaddleLeft (p1z : ℚ) (b : BallState) : BallState :=
  if b.px < -(ARENA_WIDTH / 2) + 3/2 ∧ |b.pz - p1z| < PADDLE_WIDTH / 2 + 3/10 then
    { b with vx := |b.vx| * (21/20),
             vz := b.vz + (b.pz - p1z) * 2,
             px := -(ARENA_WIDTH / 2) + 3/2 }
  else b

/-- Right (AI) paddle collision (lines 189-195).  `p2z` is
paddle2Ref.current.z. -/
def ballPaddleRight (p2z : ℚ) (b : BallState) : BallState :=
  if b.px > ARENA_WIDTH / 2 - 3/2 ∧ |b.pz - p2z| < PADDLE_WIDTH / 2 + 3/10 then
    { b with vx := -(|b.vx| * (21/20)),
             vz := b.vz + (b.pz - p2z) * 2,
             px := ARENA_WIDTH / 2 - 3/2 }
  else b

/-- Left-edge exit (lines 198-202): ball past -width/2 - 1 means the
player missed; onScore(2) fires and the ball is re-served with
velocity (BALL_SPEED, 0, (r - 0.5) * BALL_SPEED) from (0, 0.5, 0). -/
def ballScoreLeft (r1 : ℚ) (b : BallState) : BallState × List Side :=
  if b.px < -(ARENA_WIDTH / 2) - 1 then
    ({ px := 0, py := 1/2, pz := 0,
       vx := BALL_SPEED, vy := 0, vz := (r1 - 1/2) * BALL_SPEED }, [Side.ai])
  else (b, [])

/-- Right-edge exit (lines 203-207): onScore(1) fires and the ball is
re-served with velocity (-BALL_SPEED, 0, (r - 0.5) * BALL_SPEED). -/
def ballScoreRight (r2 : ℚ) (b : BallState) : BallState × List Side :=
  if b.px > ARENA_WIDTH / 2 + 1 then
    ({ px := 0, py := 1/2, pz := 0,
       vx := -BALL_SPEED, vy := 0, vz := (r2 - 1/2) * BALL_SPEED }, [Side.player])
  else (b, [])

/-- Final lateral-velocity clamp (line 210). -/
def ballClampVz (b : BallState) : BallState :=
  { b with vz := clamp b.vz (-(BALL_SPEED * (3/2))) (BALL_SPEED * (3/2)) }

/-- One unpaused Ball useFrame call (lines 161-215), in source order:
integrate, walls, left paddle, right paddle, left score, right score,
clamp vz.  Returns the new state and the list of onScore calls made. -/
def ballUpdate (delta p1z p2z r1 r2 : ℚ) (b : BallState) : BallState × List Side :=
  let b4 := ballPaddleRight p2z (ballPaddleLeft p1z (ballWalls (ballIntegrate delta b)))
  let s1 := ballScoreLeft r1 b4
  let s2 := ballScoreRight r2 s1.1
  (ballClampVz s2.1, s1.2 ++ s2.2)

/-- Player keydown directions (ArrowUp/w decreases z, ArrowDown/s
increases z). -/
inductive MoveDir where
  | up
  | down
deriving DecidableEq, Repr

/-- handleKeyDown (lines 29-36): step the target by 0.5, clamped at the
moved-toward bound. -/
def moveTargetZ : MoveDir → ℚ → ℚ
  | .up, t => max (t - 1/2) (-(ARENA_HEIGHT / 2) + PADDLE_WIDTH / 2)
  | .down, t => min (t + 1/2) (ARENA_HEIGHT / 2 - PADDLE_WIDTH / 2)

/-- Player paddle useFrame step (lines 59-63): lerp the actual z toward
the target with unclamped factor delta * PADDLE_SPEED. -/
def playerPaddleStep (delta targetZ z : ℚ) : ℚ :=
  lerp z targetZ (delta * PADDLE_SPEED)

/-- AI paddle useFrame step (lines 47-56): target is the ball ref's z
clamped to the legal band; lerp toward it with factor delta * 3. -/
def aiPaddleStep (delta ballRefZ z : ℚ) : ℚ :=
  lerp z
    (clamp ballRefZ (-(ARENA_HEIGHT / 2) + PADDLE_WIDTH / 2) (ARENA_HEIGHT / 2 - PADDLE_WIDTH / 2))
    (delta * 3)

/-- Whole-app state: match React state, ball mesh/velocity, the player
paddle's keydown target and actual z, the AI paddle's actual z, and
GameScene's ballPositionRef z (line 335).  GameScene's paddle1Ref and
paddle2Ref (lines 333-334) are initialized centered and never written
afterwards (the useFrame at lines 337-341 is a stub), so the Ball always
collides against lateral 0 on both sides; `frameStep` hard-codes that. -/
structure GameState where
  ms : MatchState
  ball : BallState
  playerTargetZ : ℚ
  playerZ : ℚ
  aiZ : ℚ
  ballPosRefZ : ℚ
deriving DecidableEq, Repr

/-- Initial app state: phase menu, scores 0, everything centered. -/
def gameInit : GameState :=
  { ms := { score1 := 0, score2 := 0, gameState := .menu, winner := none },
    ball := ballInit, playerTargetZ := 0, playerZ := 0, aiZ := 0, ballPosRefZ := 0 }

/-- A keydown event: the window listener (lines 27-40) is registered
unconditionally for the non-AI paddle and never checks the phase. -/
def movePlayer (d : MoveDir) (g : GameState) : GameState :=
  { g with playerTargetZ := moveTargetZ d g.playerTargetZ }

/-- startGame at the app level: only the four React state setters of
lines 462-465 run; ball and paddle refs are untouched. -/
def startGameSys (g : GameState) : GameState :=
  { g with ms := startGame g.ms }

/-- One rendered frame.  Both CrabPaddle useFrame callbacks run
unconditionally (CrabPaddle receives no isPaused prop); the Ball
useFrame returns early when isPaused = (gameState ≠ playing)
(line 162).  When it does run, it updates ballPositionRef to the
post-integration position (line 171) and its onScore calls feed
handleScore. -/
def frameStep (delta r1 r2 : ℚ) (g : GameState) : GameState :=
  let pz := playerPaddleStep delta g.playerTargetZ g.playerZ
  let az := aiPaddleStep delta g.ballPosRefZ g.aiZ
  if g.ms.gameState = GamePhase.playing then
    let upd := ballUpdate delta 0 0 r1 r2 g.ball
    { ms := upd.2.foldl (fun m s => handleScore s m) g.ms,
      ball := upd.1,
      playerTargetZ := g.playerTargetZ,
      playerZ := pz,
      aiZ := az,
      ballPosRefZ := (ballIntegrate delta g.ball).pz }
  else
    { g with playerZ := pz, aiZ := az }

/-- Concrete post-game state used for claims about restart: the player
won 5-4, the ball sits centered after the final score reset, and the
player paddle was last moved to lateral 2. -/
def c1State : GameState :=
  { ms := { score1 := 5, score2 := 4, gameState := .gameover, winner := some .player },
    ball := { px := 0, py := 1/2, pz := 0, vx := -8, vy := 0, vz := 2 },
    playerTargetZ := 2, playerZ := 2, aiZ := 1, ballPosRefZ := 0 }

/-- Concrete post-game state used for claims about input while paused:
everything centered, phase gameover. -/
def c2State : GameState :=
  { ms := { score1 := 5, score2 := 4, gameState := .gameover, winner := some .player },
    ball := { px := 0, py := 1/2, pz := 0, vx := -8, vy := 0, vz := 0 },
    playerTargetZ := 0, playerZ := 0, aiZ := 0, ballPosRefZ := 0 }

/-- Concrete pre-score ball for the scoring-reset claims: past the right
edge at x = 7.5, centered laterally, moving (+8, 0). -/
def c4Ball : BallState :=
  { px := 15/2, py := 1/2, pz := 0, vx := 8, vy := 0, vz := 0 }

section Helpers

theorem le_clamp (v lo hi : ℚ) : lo ≤ clamp v lo hi := le_max_left _ _

theorem clamp_le (v lo hi : ℚ) (h : lo ≤ hi) : clamp v lo hi ≤ hi :=
  max_le h (min_le_left _ _)

theorem clamp_eq_of (v lo hi : ℚ) (h1 : lo ≤ v) (h2 : v ≤ hi) : clamp v lo hi = v := by
  unfold clamp
  rw [min_eq_right h2, max_eq_right h1]

theorem abs_clamp_le (v hi : ℚ) (h : 0 ≤ hi) : |clamp v (-hi) hi| ≤ hi := by
  rw [abs_le]
  exact ⟨le_clamp _ _ _, clamp_le _ _ _ (by linarith)⟩

theorem min_le_lerp (x y t : ℚ) (h0 : 0 ≤ t) (h1 : t ≤ 1) : min x y ≤ lerp x y t := by
  unfold lerp
  rcases le_total x y with h | h
  · rw [min_eq_left h]
    nlinarith [mul_nonneg (sub_nonneg.2 h) h0]
  · rw [min_eq_right h]
    nlinarith [mul_nonneg (sub_nonneg.2 h) (sub_nonneg.2 h1)]

theorem lerp_le_max (x y t : ℚ) (h0 : 0 ≤ t) (h1 : t ≤ 1) : lerp x y t ≤ max x y := by
  unfold lerp
  rcases le_total x y with h | h
  · rw [max_eq_right h]
    nlinarith [mul_nonneg (sub_nonneg.2 h) (sub_nonneg.2 h1)]
  · rw [max_eq_left h]
    nlinarith [mul_nonneg (sub_nonneg.2 h) h0]

theorem ballIntegrate_py (delta : ℚ) (b : BallState) : (ballIntegrate delta b).py = b.py := rfl

theorem ballIntegrate_vx (delta : ℚ) (b : BallState) : (ballIntegrate delta b).vx = b.vx := rfl

theorem ballIntegrate_vz (delta : ℚ) (b : BallState) : (ballIntegrate delta b).vz = b.vz := rfl

theorem ballWalls_px (b : BallState) : (ballWalls b).px = b.px := by
  unfold ballWalls
  split <;> rfl

theorem ballWalls_py (b : BallState) : (ballWalls b).py = b.py := by
  unfold ballWalls
  split <;> rfl

theorem ballWalls_vx (b : BallState) : (ballWalls b).vx = b.vx := by
  unfold ballWalls
  split <;> rfl

theorem ballPaddleLeft_pz (p1z : ℚ) (b : BallState) : (ballPaddleLeft p1z b).pz = b.pz := by
  unfold ballPaddleLeft
  split <;> rfl

theorem ballPaddleLeft_py (p1z : ℚ) (b : BallState) : (ballPaddleLeft p1z b).py = b.py := by
  unfold ballPaddleLeft
  split <;> rfl

theorem ballPaddleRight_pz (p2z : ℚ) (b : BallState) : (ballPaddleRight p2z b).pz = b.pz := by
  unfold ballPaddleRight
  split <;> rfl

theorem ballPaddleRight_py (p2z : ℚ) (b : BallState) : (ballPaddleRight p2z b).py = b.py := by
  unfold ballPaddleRight
  split <;> rfl

theorem ballPaddleLeft_vx_ge (p1z : ℚ) (b : BallState) (h : BALL_SPEED ≤ |b.vx|) :
    BALL_SPEED ≤ |(ballPaddleLeft p1z b).vx| := by
  unfold ballPaddleLeft
  split
  · show BALL_SPEED ≤ |(|b.vx| * (21/20))|
    rw [abs_of_nonneg (by positivity)]
    rw [show BALL_SPEED = (8:ℚ) from rfl] at h ⊢
    nlinarith
  · exact h

theorem ballPaddleRight_vx_ge (p2z : ℚ) (b : BallState) (h : BALL_SPEED ≤ |b.vx|) :
    BALL_SPEED ≤ |(ballPaddleRight p2z b).vx| := by
  unfold ballPaddleRight
  split
  · show BALL_SPEED ≤ |(-(|b.vx| * (21/20)))|
    rw [abs_neg, abs_of_nonneg (by positivity)]
    rw [show BALL_SPEED = (8:ℚ) from rfl] at h ⊢
    nlinarith
  · exact h

theorem ballScoreLeft_vx_ge (r1 : ℚ) (b : BallState) (h : BALL_SPEED ≤ |b.vx|) :
    BALL_SPEED ≤ |(ballScoreLeft r1 b).1.vx| := by
  unfold ballScoreLeft
  split
  · show BALL_SPEED ≤ |BALL_SPEED|
    rw [show BALL_SPEED = (8:ℚ) from rfl]
    norm_num
  · exact h

theorem ballScoreRight_vx_ge (r2 : ℚ) (b : BallState) (h : BALL_SPEED ≤ |b.vx|) :
    BALL_SPEED ≤ |(ballScoreRight r2 b).1.vx| := by
  unfold ballScoreRight
  split
  · show BALL_SPEED ≤ |(-BALL_SPEED)|
    rw [abs_neg, show BALL_SPEED = (8:ℚ) from rfl]
    norm_num
  · exact h

theorem ballScoreLeft_pz_cases (r1 : ℚ) (b : BallState) :
    (ballScoreLeft r1 b).1.pz = b.pz ∨ (ballScoreLeft r1 b).1.pz = 0 := by
  unfold ballScoreLeft
  split
  · right; rfl
  · left; rfl

theorem ballScoreRight_pz_cases (r2 : ℚ) (b : BallState) :
    (ballScoreRight r2 b).1.pz = b.pz ∨ (ballScoreRight r2 b).1.pz = 0 := by
  unfold ballScoreRight
  split
  · right; rfl
  · left; rfl

theorem ballScoreLeft_py (r1 : ℚ) (b : BallState) (h : b.py = 1/2) :
    (ballScoreLeft r1 b).1.py = 1/2 := by
  unfold ballScoreLeft
  split
  · rfl
  · exact h

theorem ballScoreRight_py (r2 : ℚ) (b : BallState) (h : b.py = 1/2) :
    (ballScoreRight r2 b).1.py = 1/2 := by
  unfold ballScoreRight
  split
  · rfl
  · exact h

theorem ballClampVz_pz (b : BallState) : (ballClampVz b).pz = b.pz := rfl

theorem ballClampVz_py (b : BallState) : (ballClampVz b).py = b.py := rfl

theorem ballClampVz_vx (b : BallState) : (ballClampVz b).vx = b.vx := rfl

theorem ballUpdate_vx_ge (delta p1z p2z r1 r2 : ℚ) (b : BallState)
    (h : BALL_SPEED ≤ |b.vx|) :
    BALL_SPEED ≤ |(ballUpdate delta p1z p2z r1 r2 b).1.vx| := by
  simp only [ballUpdate, ballClampVz_vx]
  apply ballScoreRight_vx_ge
  apply ballScoreLeft_vx_ge
  apply ballPaddleRight_vx_ge
  apply ballPaddleLeft_vx_ge
  rw [ballWalls_vx, ballIntegrate_vx]
  exact h

/-- When the phase is not playing, the Ball useFrame returns early: only
the two paddle callbacks run. -/
theorem frameStep_not_playing (delta r1 r2 : ℚ) (g : GameState)
    (hg : g.ms.gameState ≠ GamePhase.playing) :
    frameStep delta r1 r2 g =
      { g with playerZ := playerPaddleStep delta g.playerTargetZ g.playerZ,
               aiZ := aiPaddleStep delta g.ballPosRefZ g.aiZ } := by
  simp only [frameStep]
  rw [if_neg hg]

/-- When the phase is playing, all three callbacks run. -/
theorem frameStep_playing (delta r1 r2 : ℚ) (g : GameState)
    (hg : g.ms.gameState = GamePhase.playing) :
    frameStep delta r1 r2 g =
      { ms := (ballUpdate delta 0 0 r1 r2 g.ball).2.foldl (fun m s => handleScore s m) g.ms,
        ball := (ballUpdate delta 0 0 r1 r2 g.ball).1,
        playerTargetZ := g.playerTargetZ,
        playerZ := playerPaddleStep delta g.playerTargetZ g.playerZ,
        aiZ := aiPaddleStep delta g.ballPosRefZ g.aiZ,
        ballPosRefZ := (ballIntegrate delta g.ball).pz } := by
  simp only [frameStep]
  rw [if_pos hg]

theorem handleScore_score1_mono (s : Side) (m : MatchState) :
    m.score1 ≤ (handleScore s m).score1 := by
  cases s <;> simp only [handleScore] <;> split <;> simp

theorem handleScore_score2_mono (s : Side) (m : MatchState) :
    m.score2 ≤ (handleScore s m).score2 := by
  cases s <;> simp only [handleScore] <;> split <;> simp

theorem foldl_handleScore_score1_mono (l : List Side) (m : MatchState) :
    m.score1 ≤ (l.foldl (fun m s => handleScore s m) m).score1 := by
  induction l generalizing m with
  | nil => exact le_refl _
  | cons s l ih =>
    exact le_trans (handleScore_score1_mono s m) (ih (handleScore s m))

theorem foldl_handleScore_score2_mono (l : List Side) (m : MatchState) :
    m.score2 ≤ (l.foldl (fun m s => handleScore s m) m).score2 := by
  induction l generalizing m with
  | nil => exact le_refl _
  | cons s l ih =>
    exact le_trans (handleScore_score2_mono s m) (ih (handleScore s m))

end Helpers

section Claims

/-- C8: at the end of every ball update call, regardless of which
collision or scoring branches were taken, the ball's lateral velocity
magnitude is at most 1.5 × baseBallSpeed. -/
theorem C8_lateral_speed_bounded (delta p1z p2z r1 r2 : ℚ) (b : BallState) :
    |(ballUpdate delta p1z p2z r1 r2 b).1.vz| ≤ (3/2) * BALL_SPEED := by
  simp only [ballUpdate]
  have h8 : (0:ℚ) ≤ BALL_SPEED * (3/2) := by
    rw [show BALL_SPEED = (8:ℚ) from rfl]
    norm_num
  have h := abs_clamp_le
    ((ballScoreRight r2 (ballScoreLeft r1 (ballPaddleRight p2z (ballPaddleLeft p1z
      (ballWalls (ballIntegrate delta b))))).1).1.vz) (BALL_SPEED * (3/2)) h8
  show |clamp _ (-(BALL_SPEED * (3/2))) (BALL_SPEED * (3/2))| ≤ (3/2) * BALL_SPEED
  linarith [h]

/-- C10: the ball update mutates only the along-width and lateral
coordinates: the vertical (y) coordinate of the ball's position equals
0.5 before and after every update call, including updates in which a
score reset occurs; the initial mesh position already has y = 0.5. -/
theorem C10_vertical_fixed (delta p1z p2z r1 r2 : ℚ) (b : BallState)
    (hy : b.py = 1/2) :
    ballInit.py = 1/2 ∧ (ballUpdate delta p1z p2z r1 r2 b).1.py = 1/2 := by
  refine ⟨rfl, ?_⟩
  simp only [ballUpdate, ballClampVz_py]
  apply ballScoreRight_py
  apply ballScoreLeft_py
  rw [ballPaddleRight_py, ballPaddleLeft_py, ballWalls_py, ballIntegrate_py]
  exact hy

/-- C10 witness: the update keeps y = 0.5 on the initial ball. -/
theorem C10_witness :
    ballInit.py = 1/2 ∧ (ballUpdate 1 0 0 0 0 ballInit).1.py = 1/2 :=
  C10_vertical_fixed 1 0 0 0 0 ballInit rfl

/-- C9: the magnitude of the ball's along-width velocity never drops
below baseBallSpeed: it starts at baseBallSpeed, wall bounces leave it
unchanged, each paddle hit multiplies it by 1.05, each score reset
restores it to exactly baseBallSpeed, and both a full ball update and a
full frame step preserve the lower bound. -/
theorem C9_along_width_speed_floor (delta r1 r2 p1z p2z : ℚ) (b : BallState) (g : GameState)
    (hb : BALL_SPEED ≤ |b.vx|) (hg : BALL_SPEED ≤ |g.ball.vx|) :
    |ballInit.vx| = BALL_SPEED ∧
    (ballWalls b).vx = b.vx ∧
    (b.px < -(ARENA_WIDTH / 2) + 3/2 ∧ |b.pz - p1z| < PADDLE_WIDTH / 2 + 3/10 →
      |(ballPaddleLeft p1z b).vx| = |b.vx| * (21/20)) ∧
    (b.px > ARENA_WIDTH / 2 - 3/2 ∧ |b.pz - p2z| < PADDLE_WIDTH / 2 + 3/10 →
      |(ballPaddleRight p2z b).vx| = |b.vx| * (21/20)) ∧
    (b.px < -(ARENA_WIDTH / 2) - 1 → |(ballScoreLeft r1 b).1.vx| = BALL_SPEED) ∧
    (b.px > ARENA_WIDTH / 2 + 1 → |(ballScoreRight r2 b).1.vx| = BALL_SPEED) ∧
    BALL_SPEED ≤ |(ballUpdate delta p1z p2z r1 r2 b).1.vx| ∧
    BALL_SPEED ≤ |(frameStep delta r1 r2 g).ball.vx| := by
  refine ⟨?_, ballWalls_vx b, ?_, ?_, ?_, ?_, ballUpdate_vx_ge delta p1z p2z r1 r2 b hb, ?_⟩
  · show |BALL_SPEED| = BALL_SPEED
    rw [show BALL_SPEED = (8:ℚ) from rfl]
    norm_num
  · intro hcond
    simp only [ballPaddleLeft]
    rw [if_pos hcond]
    show |(|b.vx| * (21/20))| = |b.vx| * (21/20)
    exact abs_of_nonneg (by positivity)
  · intro hcond
    simp only [ballPaddleRight]
    rw [if_pos hcond]
    show |(-(|b.vx| * (21/20)))| = |b.vx| * (21/20)
    rw [abs_neg]
    exact abs_of_nonneg (by positivity)
  · intro hcond
    simp only [ballScoreLeft]
    rw [if_pos hcond]
    show |BALL_SPEED| = BALL_SPEED
    rw [show BALL_SPEED = (8:ℚ) from rfl]
    norm_num
  · intro hcond
    simp only [ballScoreRight]
    rw [if_pos hcond]
    show |(-BALL_SPEED)| = BALL_SPEED
    rw [abs_neg, show BALL_SPEED = (8:ℚ) from rfl]
    norm_num
  · by_cases hp : g.ms.gameState = GamePhase.playing
    · rw [frameStep_playing delta r1 r2 g hp]
      exact ballUpdate_vx_ge delta 0 0 r1 r2 g.ball hg
    · rw [frameStep_not_playing delta r1 r2 g hp]
      exact hg

/-- C9 witness: the invariant instantiated at the initial ball and the
initial app state, whose along-width speed is exactly baseBallSpeed. -/
theorem C9_witness :
    (BALL_SPEED ≤ |ballInit.vx| ∧ BALL_SPEED ≤ |gameInit.ball.vx|) ∧
    (|ballInit.vx| = BALL_SPEED ∧
     (ballWalls ballInit).vx = ballInit.vx ∧
     (ballInit.px < -(ARENA_WIDTH / 2) + 3/2 ∧ |ballInit.pz - 0| < PADDLE_WIDTH / 2 + 3/10 →
       |(ballPaddleLeft 0 ballInit).vx| = |ballInit.vx| * (21/20)) ∧
     (ballInit.px > ARENA_WIDTH / 2 - 3/2 ∧ |ballInit.pz - 0| < PADDLE_WIDTH / 2 + 3/10 →
       |(ballPaddleRight 0 ballInit).vx| = |ballInit.vx| * (21/20)) ∧
     (ballInit.px < -(ARENA_WIDTH / 2) - 1 → |(ballScoreLeft 0 ballInit).1.vx| = BALL_SPEED) ∧
     (ballInit.px > ARENA_WIDTH / 2 + 1 → |(ballScoreRight 0 ballInit).1.vx| = BALL_SPEED) ∧
     BALL_SPEED ≤ |(ballUpdate 1 0 0 0 0 ballInit).1.vx| ∧
     BALL_SPEED ≤ |(frameStep 1 0 0 gameInit).ball.vx|) := by
  have hb : BALL_SPEED ≤ |ballInit.vx| := by
    show BALL_SPEED ≤ |BALL_SPEED|
    rw [show BALL_SPEED = (8:ℚ) from rfl]
    norm_num
  exact ⟨⟨hb, hb⟩, C9_along_width_speed_floor 1 0 0 0 0 ballInit gameInit hb hb⟩

/-- C6: in every update call, if the post-integration lateral position
exceeds either lateral bound minus the ball radius, the lateral velocity
is negated with unchanged magnitude and the lateral position is clamped
back into the band, so lateral containment holds at the end of the same
update. -/
theorem C6_wall_bounce (delta p1z p2z r1 r2 : ℚ) (b : BallState)
    (h : (ballIntegrate delta b).pz > ARENA_HEIGHT / 2 - 3/10 ∨
         (ballIntegrate delta b).pz < -(ARENA_HEIGHT / 2) + 3/10) :
    (ballWalls (ballIntegrate delta b)).vz = -(ballIntegrate delta b).vz ∧
    |(ballWalls (ballIntegrate delta b)).vz| = |b.vz| ∧
    -(ARENA_HEIGHT / 2) + 3/10 ≤ (ballWalls (ballIntegrate delta b)).pz ∧
    (ballWalls (ballIntegrate delta b)).pz ≤ ARENA_HEIGHT / 2 - 3/10 ∧
    -(ARENA_HEIGHT / 2) + 3/10 ≤ (ballUpdate delta p1z p2z r1 r2 b).1.pz ∧
    (ballUpdate delta p1z p2z r1 r2 b).1.pz ≤ ARENA_HEIGHT / 2 - 3/10 := by
  have hvz : (ballWalls (ballIntegrate delta b)).vz = -(ballIntegrate delta b).vz := by
    simp only [ballWalls]
    rw [if_pos h]
    show (ballIntegrate delta b).vz * (-1) = -(ballIntegrate delta b).vz
    ring
  have hpz : (ballWalls (ballIntegrate delta b)).pz =
      clamp (ballIntegrate delta b).pz (-(ARENA_HEIGHT / 2) + 3/10) (ARENA_HEIGHT / 2 - 3/10) := by
    simp only [ballWalls]
    rw [if_pos h]
  have hband : -(ARENA_HEIGHT / 2) + 3/10 ≤ (ballWalls (ballIntegrate delta b)).pz ∧
      (ballWalls (ballIntegrate delta b)).pz ≤ ARENA_HEIGHT / 2 - 3/10 := by
    rw [hpz]
    refine ⟨le_clamp _ _ _, clamp_le _ _ _ ?_⟩
    rw [show ARENA_HEIGHT = (8:ℚ) from rfl]
    norm_num
  have hzero : -(ARENA_HEIGHT / 2) + 3/10 ≤ (0:ℚ) ∧ (0:ℚ) ≤ ARENA_HEIGHT / 2 - 3/10 := by
    rw [show ARENA_HEIGHT = (8:ℚ) from rfl]
    norm_num
  refine ⟨hvz, ?_, hband.1, hband.2, ?_, ?_⟩
  · rw [hvz, abs_neg, ballIntegrate_vz]
  all_goals {
    simp only [ballUpdate, ballClampVz_pz]
    rcases ballScoreRight_pz_cases r2
        (ballScoreLeft r1 (ballPaddleRight p2z (ballPaddleLeft p1z
          (ballWalls (ballIntegrate delta b))))).1 with h2 | h2 <;>
      rw [h2]
    case inr => first
      | exact hzero.1
      | exact hzero.2
    all_goals {
      rcases ballScoreLeft_pz_cases r1 (ballPaddleRight p2z (ballPaddleLeft p1z
          (ballWalls (ballIntegrate delta b)))) with h1 | h1 <;>
        rw [h1]
      case inr => first
        | exact hzero.1
        | exact hzero.2
      rw [ballPaddleRight_pz, ballPaddleLeft_pz]
      first
        | exact hband.1
        | exact hband.2
    }
  }

/-- C6 witness: a ball one half-unit above the top band bounces and is
clamped back. -/
theorem C6_witness :
    ((ballIntegrate 0 ⟨0, 1/2, 4, 8, 0, 2⟩).pz > ARENA_HEIGHT / 2 - 3/10 ∨
     (ballIntegrate 0 ⟨0, 1/2, 4, 8, 0, 2⟩).pz < -(ARENA_HEIGHT / 2) + 3/10) ∧
    ((ballWalls (ballIntegrate 0 ⟨0, 1/2, 4, 8, 0, 2⟩)).vz =
        -(ballIntegrate 0 ⟨0, 1/2, 4, 8, 0, 2⟩).vz ∧
     |(ballWalls (ballIntegrate 0 ⟨0, 1/2, 4, 8, 0, 2⟩)).vz| = |(⟨0, 1/2, 4, 8, 0, 2⟩ : BallState).vz| ∧
     -(ARENA_HEIGHT / 2) + 3/10 ≤ (ballWalls (ballIntegrate 0 ⟨0, 1/2, 4, 8, 0, 2⟩)).pz ∧
     (ballWalls (ballIntegrate 0 ⟨0, 1/2, 4, 8, 0, 2⟩)).pz ≤ ARENA_HEIGHT / 2 - 3/10 ∧
     -(ARENA_HEIGHT / 2) + 3/10 ≤ (ballUpdate 0 0 0 0 0 ⟨0, 1/2, 4, 8, 0, 2⟩).1.pz ∧
     (ballUpdate 0 0 0 0 0 ⟨0, 1/2, 4, 8, 0, 2⟩).1.pz ≤ ARENA_HEIGHT / 2 - 3/10) := by
  have h : (ballIntegrate 0 ⟨0, 1/2, 4, 8, 0, 2⟩).pz > ARENA_HEIGHT / 2 - 3/10 ∨
      (ballIntegrate 0 ⟨0, 1/2, 4, 8, 0, 2⟩).pz < -(ARENA_HEIGHT / 2) + 3/10 := by
    left
    norm_num [ballIntegrate, ARENA_HEIGHT]
  exact ⟨h, C6_wall_bounce 0 0 0 0 0 ⟨0, 1/2, 4, 8, 0, 2⟩ h⟩

/-- C5: if after position integration the ball is at
(arenaWidth/2 - 1.4, lateral 0) with velocity (+8, 0) and the AI paddle
is at lateral 0, the AI-paddle branch fires: the along-width velocity
becomes -8.4 (reflected and scaled by 1.05), the lateral velocity is
unchanged at 0, the along-width position is clamped to
arenaWidth/2 - 1.5, and no score event is emitted. -/
theorem C5_ai_paddle_reflection (delta p1z r1 r2 : ℚ) (b : BallState)
    (h : ballIntegrate delta b =
      { px := ARENA_WIDTH / 2 - 7/5, py := 1/2, pz := 0, vx := 8, vy := 0, vz := 0 }) :
    ballUpdate delta p1z 0 r1 r2 b =
      ({ px := ARENA_WIDTH / 2 - 3/2, py := 1/2, pz := 0, vx := -42/5, vy := 0, vz := 0 }, []) := by
  simp only [ballUpdate, h]
  norm_num [ballWalls, ballPaddleLeft, ballPaddleRight, ballScoreLeft, ballScoreRight,
    ballClampVz, clamp, ARENA_WIDTH, ARENA_HEIGHT, PADDLE_WIDTH, BALL_SPEED, abs]

/-- C5 witness: with delta 0 the integration step is the identity, so
the hypothesis holds at the concrete pre-collision ball. -/
theorem C5_witness :
    ballIntegrate 0 ⟨ARENA_WIDTH / 2 - 7/5, 1/2, 0, 8, 0, 0⟩ =
      { px := ARENA_WIDTH / 2 - 7/5, py := 1/2, pz := 0, vx := 8, vy := 0, vz := 0 } ∧
    ballUpdate 0 0 0 0 0 ⟨ARENA_WIDTH / 2 - 7/5, 1/2, 0, 8, 0, 0⟩ =
      ({ px := ARENA_WIDTH / 2 - 3/2, py := 1/2, pz := 0, vx := -42/5, vy := 0, vz := 0 }, []) := by
  have h : ballIntegrate 0 ⟨ARENA_WIDTH / 2 - 7/5, 1/2, 0, 8, 0, 0⟩ =
      { px := ARENA_WIDTH / 2 - 7/5, py := 1/2, pz := 0, vx := 8, vy := 0, vz := 0 } := by
    simp [ballIntegrate]
  exact ⟨h, C5_ai_paddle_reflection 0 0 0 0 ⟨ARENA_WIDTH / 2 - 7/5, 1/2, 0, 8, 0, 0⟩ h⟩

/-- C4 counterexample: the ball exits the right (AI) edge — the AI side
concedes — yet the reset along-width velocity is -8, pointing away from
the conceding side, not toward it as the claim states. -/
theorem C4_counterexample :
    c4Ball.px > ARENA_WIDTH / 2 + 1 ∧
    (ballUpdate 0 0 3 (1/2) (1/2) c4Ball).2 = [Side.player] ∧
    (ballUpdate 0 0 3 (1/2) (1/2) c4Ball).1.vx = -BALL_SPEED ∧
    ¬ (0 < (ballUpdate 0 0 3 (1/2) (1/2) c4Ball).1.vx) := by
  norm_num [c4Ball, ballUpdate, ballIntegrate, ballWalls, ballPaddleLeft, ballPaddleRight,
    ballScoreLeft, ballScoreRight, ballClampVz, clamp,
    ARENA_WIDTH, ARENA_HEIGHT, PADDLE_WIDTH, BALL_SPEED, abs]

/-- C4 (amended): when the ball crosses an arena edge by the margin of
1 unit, exactly one score event for the opposing side is emitted, the
ball position is reset to the arena center exactly, the along-width
velocity is set to baseBallSpeed in magnitude with sign toward the side
that scored (away from the side that conceded), and the lateral
velocity lies within [-baseBallSpeed/2, +baseBallSpeed/2]. -/
theorem C4_score_reset (delta p1z p2z r1 r2 : ℚ) (b : BallState)
    (hr1a : 0 ≤ r1) (hr1b : r1 < 1) (hr2a : 0 ≤ r2) (hr2b : r2 < 1) :
    ((ballPaddleRight p2z (ballPaddleLeft p1z (ballWalls (ballIntegrate delta b)))).px >
        ARENA_WIDTH / 2 + 1 →
      ballUpdate delta p1z p2z r1 r2 b =
        ({ px := 0, py := 1/2, pz := 0, vx := -BALL_SPEED, vy := 0,
           vz := (r2 - 1/2) * BALL_SPEED }, [Side.player]) ∧
      -(BALL_SPEED / 2) ≤ (r2 - 1/2) * BALL_SPEED ∧
      (r2 - 1/2) * BALL_SPEED ≤ BALL_SPEED / 2) ∧
    ((ballPaddleRight p2z (ballPaddleLeft p1z (ballWalls (ballIntegrate delta b)))).px <
        -(ARENA_WIDTH / 2) - 1 →
      ballUpdate delta p1z p2z r1 r2 b =
        ({ px := 0, py := 1/2, pz := 0, vx := BALL_SPEED, vy := 0,
           vz := (r1 - 1/2) * BALL_SPEED }, [Side.ai]) ∧
      -(BALL_SPEED / 2) ≤ (r1 - 1/2) * BALL_SPEED ∧
      (r1 - 1/2) * BALL_SPEED ≤ BALL_SPEED / 2) := by
  have h8 : BALL_SPEED = (8:ℚ) := rfl
  have h12 : ARENA_WIDTH = (12:ℚ) := rfl
  have hvz1 : clamp ((r1 - 1/2) * BALL_SPEED) (-(BALL_SPEED * (3/2))) (BALL_SPEED * (3/2)) =
      (r1 - 1/2) * BALL_SPEED := by
    rw [h8]
    exact clamp_eq_of _ _ _ (by nlinarith) (by nlinarith)
  have hvz2 : clamp ((r2 - 1/2) * BALL_SPEED) (-(BALL_SPEED * (3/2))) (BALL_SPEED * (3/2)) =
      (r2 - 1/2) * BALL_SPEED := by
    rw [h8]
    exact clamp_eq_of _ _ _ (by nlinarith) (by nlinarith)
  constructor
  · intro h
    have hnl : ¬ ((ballPaddleRight p2z (ballPaddleLeft p1z (ballWalls (ballIntegrate delta b)))).px <
        -(ARENA_WIDTH / 2) - 1) := by
      rw [h12] at h ⊢
      linarith
    have e1 : ballScoreLeft r1
        (ballPaddleRight p2z (ballPaddleLeft p1z (ballWalls (ballIntegrate delta b)))) =
        (ballPaddleRight p2z (ballPaddleLeft p1z (ballWalls (ballIntegrate delta b))),
         ([] : List Side)) := by
      simp only [ballScoreLeft]
      rw [if_neg hnl]
    refine ⟨?_, by rw [h8]; nlinarith, by rw [h8]; nlinarith⟩
    simp only [ballUpdate, e1]
    simp only [ballScoreRight]
    rw [if_pos h]
    simp only [ballClampVz, hvz2]
    rfl
  · intro h
    have e1 : ballScoreLeft r1
        (ballPaddleRight p2z (ballPaddleLeft p1z (ballWalls (ballIntegrate delta b)))) =
        ({ px := 0, py := 1/2, pz := 0, vx := BALL_SPEED, vy := 0,
           vz := (r1 - 1/2) * BALL_SPEED }, [Side.ai]) := by
      simp only [ballScoreLeft]
      rw [if_pos h]
    have hnr : ¬ ((0:ℚ) > ARENA_WIDTH / 2 + 1) := by
      rw [h12]
      norm_num
    refine ⟨?_, by rw [h8]; nlinarith, by rw [h8]; nlinarith⟩
    simp only [ballUpdate, e1]
    simp only [ballScoreRight]
    rw [if_neg hnr]
    simp only [ballClampVz, hvz1]
    rfl

/-- C4 witness: the amended reset behaviour at a concrete right-edge
exit (c4Ball at x = 7.5, AI paddle moved away at lateral 3, both random
draws 1/2). -/
theorem C4_witness :
    ((0:ℚ) ≤ 1/2 ∧ (1/2:ℚ) < 1) ∧
    (((ballPaddleRight 3 (ballPaddleLeft 0 (ballWalls (ballIntegrate 0 c4Ball)))).px >
        ARENA_WIDTH / 2 + 1 →
      ballUpdate 0 0 3 (1/2) (1/2) c4Ball =
        ({ px := 0, py := 1/2, pz := 0, vx := -BALL_SPEED, vy := 0,
           vz := ((1:ℚ)/2 - 1/2) * BALL_SPEED }, [Side.player]) ∧
      -(BALL_SPEED / 2) ≤ ((1:ℚ)/2 - 1/2) * BALL_SPEED ∧
      ((1:ℚ)/2 - 1/2) * BALL_SPEED ≤ BALL_SPEED / 2) ∧
    ((ballPaddleRight 3 (ballPaddleLeft 0 (ballWalls (ballIntegrate 0 c4Ball)))).px <
        -(ARENA_WIDTH / 2) - 1 →
      ballUpdate 0 0 3 (1/2) (1/2) c4Ball =
        ({ px := 0, py := 1/2, pz := 0, vx := BALL_SPEED, vy := 0,
           vz := ((1:ℚ)/2 - 1/2) * BALL_SPEED }, [Side.ai]) ∧
      -(BALL_SPEED / 2) ≤ ((1:ℚ)/2 - 1/2) * BALL_SPEED ∧
      ((1:ℚ)/2 - 1/2) * BALL_SPEED ≤ BALL_SPEED / 2)) :=
  ⟨⟨by norm_num, by norm_num⟩,
    C4_score_reset 0 0 3 (1/2) (1/2) c4Ball (by norm_num) (by norm_num) (by norm_num) (by norm_num)⟩

/-- C7: each onScore increments exactly the scorer's counter by 1;
reaching winningScore flips the phase to GameOver and records the
winner within the same call; frame scores are non-decreasing; and once
the phase is not Playing, a frame step changes no match state at all
(so no score changes until start()). -/
theorem C7_score_monotone_and_termination (m : MatchState) (s : Side) (g g' : GameState)
    (delta delta' r1 r2 r1' r2' : ℚ)
    (hg : g'.ms.gameState ≠ GamePhase.playing) :
    scoreOf s (handleScore s m) = scoreOf s m + 1 ∧
    scoreOf (Side.other s) (handleScore s m) = scoreOf (Side.other s) m ∧
    (WINNING_SCORE ≤ scoreOf s (handleScore s m) →
      (handleScore s m).gameState = GamePhase.gameover ∧
      (handleScore s m).winner = some s) ∧
    g.ms.score1 ≤ (frameStep delta r1 r2 g).ms.score1 ∧
    g.ms.score2 ≤ (frameStep delta r1 r2 g).ms.score2 ∧
    (frameStep delta' r1' r2' g').ms = g'.ms := by
  refine ⟨?_, ?_, ?_, ?_, ?_, ?_⟩
  · cases s <;> simp only [handleScore, scoreOf] <;> split <;> rfl
  · cases s <;> simp only [handleScore, scoreOf, Side.other] <;> split <;> rfl
  · intro h5
    cases s
    case player =>
      have h5' : WINNING_SCORE ≤ m.score1 + 1 := by
        simp only [scoreOf, handleScore] at h5
        split at h5 <;> exact h5
      simp only [handleScore]
      rw [if_pos h5']
      exact ⟨rfl, rfl⟩
    case ai =>
      have h5' : WINNING_SCORE ≤ m.score2 + 1 := by
        simp only [scoreOf, handleScore] at h5
        split at h5 <;> exact h5
      simp only [handleScore]
      rw [if_pos h5']
      exact ⟨rfl, rfl⟩
  · by_cases hp : g.ms.gameState = GamePhase.playing
    · rw [frameStep_playing delta r1 r2 g hp]
      exact foldl_handleScore_score1_mono _ _
    · rw [frameStep_not_playing delta r1 r2 g hp]
  · by_cases hp : g.ms.gameState = GamePhase.playing
    · rw [frameStep_playing delta r1 r2 g hp]
      exact foldl_handleScore_score2_mono _ _
    · rw [frameStep_not_playing delta r1 r2 g hp]
  · rw [frameStep_not_playing delta' r1' r2' g' hg]

/-- C7 witness: the score reducer at 4-3 with the player scoring the
winning point, and a frozen frame on the resulting game-over state. -/
theorem C7_witness :
    c2State.ms.gameState ≠ GamePhase.playing ∧
    (scoreOf Side.player (handleScore Side.player ⟨4, 3, .playing, none⟩) =
        scoreOf Side.player ⟨4, 3, .playing, none⟩ + 1 ∧
     scoreOf (Side.other Side.player) (handleScore Side.player ⟨4, 3, .playing, none⟩) =
        scoreOf (Side.other Side.player) ⟨4, 3, .playing, none⟩ ∧
     (WINNING_SCORE ≤ scoreOf Side.player (handleScore Side.player ⟨4, 3, .playing, none⟩) →
       (handleScore Side.player ⟨4, 3, .playing, none⟩).gameState = GamePhase.gameover ∧
       (handleScore Side.player ⟨4, 3, .playing, none⟩).winner = some Side.player) ∧
     gameInit.ms.score1 ≤ (frameStep 1 0 0 gameInit).ms.score1 ∧
     gameInit.ms.score2 ≤ (frameStep 1 0 0 gameInit).ms.score2 ∧
     (frameStep 1 0 0 c2State).ms = c2State.ms) := by
  have hg : c2State.ms.gameState ≠ GamePhase.playing := by decide
  exact ⟨hg, C7_score_monotone_and_termination ⟨4, 3, .playing, none⟩ Side.player
    gameInit c2State 1 1 0 0 0 0 hg⟩

/-- C1 counterexample: restarting from a 5-4 game over resets the match
state, but the player paddle does not return to its initial centered
lateral position (it stays at 2, while the initial value is 0):
startGame touches only scores, winner and phase. -/
theorem C1_counterexample :
    c1State.ms.gameState = GamePhase.gameover ∧
    c1State.ms.score1 = 5 ∧
    c1State.ms.score2 = 4 ∧
    gameInit.playerZ = 0 ∧
    (startGameSys c1State).ms.gameState = GamePhase.playing ∧
    (startGameSys c1State).playerZ ≠ gameInit.playerZ := by
  refine ⟨rfl, rfl, rfl, rfl, rfl, ?_⟩
  show (2:ℚ) ≠ 0
  norm_num

/-- C1 (amended): start()/restart from GameOver resets both scores to 0,
clears the winner and sets the phase to Playing, but leaves the ball
state and both paddle lateral positions (and the player's move target)
exactly as they were — in particular the ball, already centered by the
last score reset and frozen while paused, stays centered, while the
paddles are NOT recentered. -/
theorem C1_restart_resets_match_only (g : GameState)
    (_hg : g.ms.gameState = GamePhase.gameover) :
    (startGameSys g).ms.score1 = 0 ∧
    (startGameSys g).ms.score2 = 0 ∧
    (startGameSys g).ms.winner = none ∧
    (startGameSys g).ms.gameState = GamePhase.playing ∧
    (startGameSys g).ball = g.ball ∧
    (startGameSys g).playerZ = g.playerZ ∧
    (startGameSys g).aiZ = g.aiZ ∧
    (startGameSys g).playerTargetZ = g.playerTargetZ :=
  ⟨rfl, rfl, rfl, rfl, rfl, rfl, rfl, rfl⟩

/-- C1 witness: the amended restart behaviour at the concrete 5-4
game-over state. -/
theorem C1_witness :
    c1State.ms.gameState = GamePhase.gameover ∧
    ((startGameSys c1State).ms.score1 = 0 ∧
     (startGameSys c1State).ms.score2 = 0 ∧
     (startGameSys c1State).ms.winner = none ∧
     (startGameSys c1State).ms.gameState = GamePhase.playing ∧
     (startGameSys c1State).ball = c1State.ball ∧
     (startGameSys c1State).playerZ = c1State.playerZ ∧
     (startGameSys c1State).aiZ = c1State.aiZ ∧
     (startGameSys c1State).playerTargetZ = c1State.playerTargetZ) :=
  ⟨rfl, C1_restart_resets_match_only c1State rfl⟩

/-- C2 counterexample: with the phase at GameOver, a frame without input
leaves the player paddle at 0, but a move-down keydown followed by the
same frame moves it to 1/2 — the keydown listener and the paddle lerp
are not gated by the phase. -/
theorem C2_counterexample :
    c2State.ms.gameState ≠ GamePhase.playing ∧
    (frameStep (1/10) 0 0 c2State).playerZ = c2State.playerZ ∧
    (frameStep (1/10) 0 0 (movePlayer .down c2State)).playerZ ≠ c2State.playerZ := by
  have hg : c2State.ms.gameState ≠ GamePhase.playing := by decide
  have hg' : (movePlayer .down c2State).ms.gameState ≠ GamePhase.playing := hg
  refine ⟨hg, ?_, ?_⟩
  · rw [frameStep_not_playing (1/10) 0 0 c2State hg]
    show playerPaddleStep (1/10) c2State.playerTargetZ c2State.playerZ = c2State.playerZ
    norm_num [c2State, playerPaddleStep, lerp, PADDLE_SPEED]
  · rw [frameStep_not_playing (1/10) 0 0 _ hg']
    show playerPaddleStep (1/10) (movePlayer .down c2State).playerTargetZ
      (movePlayer .down c2State).playerZ ≠ c2State.playerZ
    norm_num [c2State, movePlayer, moveTargetZ, playerPaddleStep, lerp,
      PADDLE_SPEED, ARENA_HEIGHT, PADDLE_WIDTH]

/-- C2 (amended): while the phase is not Playing only the ball is
frozen: the match state and ball are unchanged by a frame, but a move
keydown still updates the player target (the listener is not gated by
phase) and the next frame still lerps the paddle toward that target. -/
theorem C2_input_not_gated (g : GameState) (delta r1 r2 : ℚ) (d : MoveDir)
    (hg : g.ms.gameState ≠ GamePhase.playing) :
    (frameStep delta r1 r2 g).ball = g.ball ∧
    (frameStep delta r1 r2 g).ms = g.ms ∧
    (movePlayer d g).playerTargetZ = moveTargetZ d g.playerTargetZ ∧
    (frameStep delta r1 r2 (movePlayer d g)).playerZ =
      playerPaddleStep delta (moveTargetZ d g.playerTargetZ) g.playerZ := by
  have hg' : (movePlayer d g).ms.gameState ≠ GamePhase.playing := hg
  rw [frameStep_not_playing delta r1 r2 g hg, frameStep_not_playing delta r1 r2 _ hg']
  exact ⟨rfl, rfl, rfl, rfl⟩

/-- C2 witness: the ungated input behaviour at the concrete game-over
state. -/
theorem C2_witness :
    c2State.ms.gameState ≠ GamePhase.playing ∧
    ((frameStep (1/10) 0 0 c2State).ball = c2State.ball ∧
     (frameStep (1/10) 0 0 c2State).ms = c2State.ms ∧
     (movePlayer .down c2State).playerTargetZ = moveTargetZ .down c2State.playerTargetZ ∧
     (frameStep (1/10) 0 0 (movePlayer .down c2State)).playerZ =
       playerPaddleStep (1/10) (moveTargetZ .down c2State.playerTargetZ) c2State.playerZ) := by
  have hg : c2State.ms.gameState ≠ GamePhase.playing := by decide
  exact ⟨hg, C2_input_not_gated c2State (1/10) 0 0 .down hg⟩

/-- C3 counterexample: a legal state (position 0, target 11/4, both in
the legal band) and a finite non-negative deltaTime of 1 second make the
player lerp overshoot to 55/2, outside the band and past the target —
THREE.MathUtils.lerp does not clamp its factor. -/
theorem C3_counterexample :
    (0:ℚ) ≤ 1 ∧
    -(ARENA_HEIGHT / 2) + PADDLE_WIDTH / 2 ≤ (0:ℚ) ∧
    (0:ℚ) ≤ ARENA_HEIGHT / 2 - PADDLE_WIDTH / 2 ∧
    -(ARENA_HEIGHT / 2) + PADDLE_WIDTH / 2 ≤ (11/4:ℚ) ∧
    (11/4:ℚ) ≤ ARENA_HEIGHT / 2 - PADDLE_WIDTH / 2 ∧
    playerPaddleStep 1 (11/4) 0 = 55/2 ∧
    ¬ (playerPaddleStep 1 (11/4) 0 ≤ ARENA_HEIGHT / 2 - PADDLE_WIDTH / 2) ∧
    ¬ (playerPaddleStep 1 (11/4) 0 ≤ 11/4) := by
  norm_num [playerPaddleStep, lerp, PADDLE_SPEED, ARENA_HEIGHT, PADDLE_WIDTH]

/-- C3 (amended): for frames whose deltaTime is non-negative and small
enough that the lerp factor stays at most 1 (deltaTime × paddleSpeed
≤ 1), both paddles' lateral positions move from their current value
toward their (clamped, in-band) target without overshooting it and stay
within [-arenaHeight/2 + paddleExtent/2, arenaHeight/2 -
paddleExtent/2]; keydown targets also stay in that band.  For larger
deltas the unclamped lerp overshoots. -/
theorem C3_paddle_containment (delta z t ballRefZ : ℚ) (d : MoveDir)
    (hd0 : 0 ≤ delta) (hd1 : delta * PADDLE_SPEED ≤ 1)
    (hz1 : -(ARENA_HEIGHT / 2) + PADDLE_WIDTH / 2 ≤ z)
    (hz2 : z ≤ ARENA_HEIGHT / 2 - PADDLE_WIDTH / 2)
    (ht1 : -(ARENA_HEIGHT / 2) + PADDLE_WIDTH / 2 ≤ t)
    (ht2 : t ≤ ARENA_HEIGHT / 2 - PADDLE_WIDTH / 2) :
    min z t ≤ playerPaddleStep delta t z ∧
    playerPaddleStep delta t z ≤ max z t ∧
    -(ARENA_HEIGHT / 2) + PADDLE_WIDTH / 2 ≤ playerPaddleStep delta t z ∧
    playerPaddleStep delta t z ≤ ARENA_HEIGHT / 2 - PADDLE_WIDTH / 2 ∧
    min z (clamp ballRefZ (-(ARENA_HEIGHT / 2) + PADDLE_WIDTH / 2)
        (ARENA_HEIGHT / 2 - PADDLE_WIDTH / 2)) ≤ aiPaddleStep delta ballRefZ z ∧
    aiPaddleStep delta ballRefZ z ≤ max z (clamp ballRefZ
        (-(ARENA_HEIGHT / 2) + PADDLE_WIDTH / 2) (ARENA_HEIGHT / 2 - PADDLE_WIDTH / 2)) ∧
    -(ARENA_HEIGHT / 2) + PADDLE_WIDTH / 2 ≤ aiPaddleStep delta ballRefZ z ∧
    aiPaddleStep delta ballRefZ z ≤ ARENA_HEIGHT / 2 - PADDLE_WIDTH / 2 ∧
    -(ARENA_HEIGHT / 2) + PADDLE_WIDTH / 2 ≤ moveTargetZ d t ∧
    moveTargetZ d t ≤ ARENA_HEIGHT / 2 - PADDLE_WIDTH / 2 := by
  have hlohi : -(ARENA_HEIGHT / 2) + PADDLE_WIDTH / 2 ≤ ARENA_HEIGHT / 2 - PADDLE_WIDTH / 2 := by
    rw [show ARENA_HEIGHT = (8:ℚ) from rfl, show PADDLE_WIDTH = (5/2:ℚ) from rfl]
    norm_num
  have hp10 : PADDLE_SPEED = (10:ℚ) := rfl
  have hf0 : 0 ≤ delta * PADDLE_SPEED := by
    rw [hp10]
    positivity
  have ha0 : 0 ≤ delta * 3 := by positivity
  have ha1 : delta * 3 ≤ 1 := by
    rw [hp10] at hd1
    nlinarith
  have hc1 : -(ARENA_HEIGHT / 2) + PADDLE_WIDTH / 2 ≤
      clamp ballRefZ (-(ARENA_HEIGHT / 2) + PADDLE_WIDTH / 2)
        (ARENA_HEIGHT / 2 - PADDLE_WIDTH / 2) := le_clamp _ _ _
  have hc2 : clamp ballRefZ (-(ARENA_HEIGHT / 2) + PADDLE_WIDTH / 2)
      (ARENA_HEIGHT / 2 - PADDLE_WIDTH / 2) ≤ ARENA_HEIGHT / 2 - PADDLE_WIDTH / 2 :=
    clamp_le _ _ _ hlohi
  have hpmin : min z t ≤ playerPaddleStep delta t z := min_le_lerp z t _ hf0 hd1
  have hpmax : playerPaddleStep delta t z ≤ max z t := lerp_le_max z t _ hf0 hd1
  have hamin : min z (clamp ballRefZ (-(ARENA_HEIGHT / 2) + PADDLE_WIDTH / 2)
      (ARENA_HEIGHT / 2 - PADDLE_WIDTH / 2)) ≤ aiPaddleStep delta ballRefZ z :=
    min_le_lerp z _ _ ha0 ha1
  have hamax : aiPaddleStep delta ballRefZ z ≤ max z (clamp ballRefZ
      (-(ARENA_HEIGHT / 2) + PADDLE_WIDTH / 2) (ARENA_HEIGHT / 2 - PADDLE_WIDTH / 2)) :=
    lerp_le_max z _ _ ha0 ha1
  refine ⟨hpmin, hpmax, le_trans (le_min hz1 ht1) hpmin, le_trans hpmax (max_le hz2 ht2),
    hamin, hamax, le_trans (le_min hz1 hc1) hamin, le_trans hamax (max_le hz2 hc2), ?_, ?_⟩
  · cases d
    case up => exact le_max_right _ _
    case down => exact le_min (by linarith) hlohi
  · cases d
    case up => exact max_le (by linarith) hlohi
    case down => exact min_le_right _ _

/-- C3 witness: a 1/20-second frame (lerp factor 1/2) from position 0
toward target 1/2, with the ball far above the band. -/
theorem C3_witness :
    ((0:ℚ) ≤ 1/20 ∧ (1/20:ℚ) * PADDLE_SPEED ≤ 1 ∧
     -(ARENA_HEIGHT / 2) + PADDLE_WIDTH / 2 ≤ (0:ℚ) ∧
     (0:ℚ) ≤ ARENA_HEIGHT / 2 - PADDLE_WIDTH / 2 ∧
     -(ARENA_HEIGHT / 2) + PADDLE_WIDTH / 2 ≤ (1/2:ℚ) ∧
     (1/2:ℚ) ≤ ARENA_HEIGHT / 2 - PADDLE_WIDTH / 2) ∧
    (min 0 (1/2) ≤ playerPaddleStep (1/20) (1/2) 0 ∧
     playerPaddleStep (1/20) (1/2) 0 ≤ max 0 (1/2) ∧
     -(ARENA_HEIGHT / 2) + PADDLE_WIDTH / 2 ≤ playerPaddleStep (1/20) (1/2) 0 ∧
     playerPaddleStep (1/20) (1/2) 0 ≤ ARENA_HEIGHT / 2 - PADDLE_WIDTH / 2 ∧
     min 0 (clamp 5 (-(ARENA_HEIGHT / 2) + PADDLE_WIDTH / 2)
         (ARENA_HEIGHT / 2 - PADDLE_WIDTH / 2)) ≤ aiPaddleStep (1/20) 5 0 ∧
     aiPaddleStep (1/20) 5 0 ≤ max 0 (clamp 5
         (-(ARENA_HEIGHT / 2) + PADDLE_WIDTH / 2) (ARENA_HEIGHT / 2 - PADDLE_WIDTH / 2)) ∧
     -(ARENA_HEIGHT / 2) + PADDLE_WIDTH / 2 ≤ aiPaddleStep (1/20) 5 0 ∧
     aiPaddleStep (1/20) 5 0 ≤ ARENA_HEIGHT / 2 - PADDLE_WIDTH / 2 ∧
     -(ARENA_HEIGHT / 2) + PADDLE_WIDTH / 2 ≤ moveTargetZ .up (1/2) ∧
     moveTargetZ .up (1/2) ≤ ARENA_HEIGHT / 2 - PADDLE_WIDTH / 2) := by
  have h1 : (0:ℚ) ≤ 1/20 := by norm_num
  have h2 : (1/20:ℚ) * PADDLE_SPEED ≤ 1 := by
    rw [show PADDLE_SPEED = (10:ℚ) from rfl]
    norm_num
  have h3 : -(ARENA_HEIGHT / 2) + PADDLE_WIDTH / 2 ≤ (0:ℚ) := by
    rw [show ARENA_HEIGHT = (8:ℚ) from rfl, show PADDLE_WIDTH = (5/2:ℚ) from rfl]
    norm_num
  have h4 : (0:ℚ) ≤ ARENA_HEIGHT / 2 - PADDLE_WIDTH / 2 := by
    rw [show ARENA_HEIGHT = (8:ℚ) from rfl, show PADDLE_WIDTH = (5/2:ℚ) from rfl]
    norm_num
  have h5 : -(ARENA_HEIGHT / 2) + PADDLE_WIDTH / 2 ≤ (1/2:ℚ) := by
    rw [show ARENA_HEIGHT = (8:ℚ) from rfl, show PADDLE_WIDTH = (5/2:ℚ) from rfl]
    norm_num
  have h6 : (1/2:ℚ) ≤ ARENA_HEIGHT / 2 - PADDLE_WIDTH / 2 := by
    rw [show ARENA_HEIGHT = (8:ℚ) from rfl, show PADDLE_WIDTH = (5/2:ℚ) from rfl]
    norm_num
  exact ⟨⟨h1, h2, h3, h4, h5, h6⟩,
    C3_paddle_containment (1/20) 0 (1/2) 5 .up h1 h2 h3 h4 h5 h6⟩

end Claims

end CrabPong
